import Mathlib

/-!
Verification development for the bunnai repository (src/src/config.ts and
src/src/run.ts): a shallow embedding of its configuration store, model
catalog and commit-message generation pipeline, with theorems checking the
specification's claims against the code.

Conventions of the embedding:
* the filesystem is passed explicitly: the config file as a `ConfigFile`
  value, template-file existence as a predicate `String → Bool`, template
  contents as a function `String → String`;
* `JSON.parse` success or failure is part of the `ConfigFile` input
  (`corrupt` stands for a file whose contents do not parse); the message of
  the resulting error is modelled by the spec's taxonomy name
  `ConfigCorruptError` since the concrete text comes from the JS runtime;
* machine effects (`process.exit`, throwing, issuing an HTTP request) are
  reified as constructors of outcome types; a provider call appears in an
  outcome if and only if the code reaches the corresponding client-library
  invocation.
-/

/-- Join of a home directory and a file name, standing for `path.join(os.homedir(), name)`. -/
def pathJoin (home name : String) : String := home ++ "/" ++ name

/-- Configuration record, from `interface Config` in config.ts. `provider` is kept
as a raw string (the JSON file may hold anything); `templates` is the JS object
`Record<string, string>` as an association list. -/
structure Config where
  provider : String
  OPENAI_API_KEY : String
  model : String
  ollama_endpoint : Option String
  ollama_model : Option String
  templates : List (String × String)
  deriving DecidableEq, Repr

/-- Hardcoded defaults, from `DEFAULT_CONFIG` in config.ts, with the home
directory as an explicit parameter. -/
def DEFAULT_CONFIG (home : String) : Config :=
  { provider := "openai"
    OPENAI_API_KEY := ""
    model := "gpt-4-0125-preview"
    ollama_endpoint := some "http://localhost:11434"
    ollama_model := some "gemma3:4b"
    templates := [("default", pathJoin home ".bunnai-template")] }

/-- Decoded contents of a parsed, schema-shaped config file: each field is
present (`some`) or absent (`none`). A present field wins over the default in
the shallow merge `\x7b...DEFAULT_CONFIG, ...config\x7d` of `readConfigFile`. -/
structure ConfigOverrides where
  provider : Option String
  OPENAI_API_KEY : Option String
  model : Option String
  ollama_endpoint : Option String
  ollama_model : Option String
  templates : Option (List (String × String))
  deriving DecidableEq, Repr

/-- State of the configuration file on disk: missing, present but not valid
JSON, or present with decoded contents. -/
inductive ConfigFile where
  | absent
  | corrupt
  | valid (p : ConfigOverrides)
  deriving DecidableEq, Repr

/-- Label for the error thrown when the config file exists but `JSON.parse`
fails (the spec's `ConfigCorruptError`; the concrete message text comes from
the JS runtime, not from repository code). -/
def configCorruptError : String := "ConfigCorruptError"

/-- Shallow merge of decoded file contents onto the defaults, per key, loaded
values winning: `\x7b ...DEFAULT_CONFIG, ...config \x7d` in `readConfigFile`. -/
def mergeConfig (d : Config) (p : ConfigOverrides) : Config :=
  { provider := p.provider.getD d.provider
    OPENAI_API_KEY := p.OPENAI_API_KEY.getD d.OPENAI_API_KEY
    model := p.model.getD d.model
    ollama_endpoint := match p.ollama_endpoint with
      | some s => some s
      | none => d.ollama_endpoint
    ollama_model := match p.ollama_model with
      | some s => some s
      | none => d.ollama_model
    templates := p.templates.getD d.templates }

/-- Embedding of `readConfigFile` (config.ts): defaults when the file is
absent, an error when it exists but does not parse, otherwise the shallow
merge of the decoded object onto the defaults. -/
def readConfigFile (home : String) (file : ConfigFile) : Except String Config :=
  match file with
  | .absent => .ok (DEFAULT_CONFIG home)
  | .corrupt => .error configCorruptError
  | .valid p => .ok (mergeConfig (DEFAULT_CONFIG home) p)

/-- Embedding of `cleanUpTemplates` (config.ts): delete every `templates`
entry whose file does not exist; the `fexists` parameter stands for
`Bun.file(path).exists()`. -/
def cleanUpTemplates (fexists : String → Bool) (c : Config) : Config :=
  { c with templates := c.templates.filter (fun kv => fexists kv.2) }

/-- Key list of the defaults, `Object.keys(DEFAULT_CONFIG)` in insertion order. -/
def configKeys : List String :=
  ["provider", "OPENAI_API_KEY", "model", "ollama_endpoint", "ollama_model", "templates"]

/-- Embedding of `validateKeys` (config.ts): throws on the first key that is
not a key of `DEFAULT_CONFIG`, naming it in the message. -/
def validateKeys : List String → Except String Unit
  | [] => .ok ()
  | k :: rest =>
    if configKeys.contains k then validateKeys rest
    else .error ("Invalid config property: " ++ k)

/-- Value assigned to a config field by `setConfigs`: either a string or a
templates map (the two value shapes `Config[keyof Config]` takes here). -/
inductive ConfigValue where
  | str (s : String)
  | map (m : List (String × String))
  deriving DecidableEq, Repr

/-- Single assignment `config[key] = value` performed by the `setConfigs`
loop. A value of the wrong shape for the field leaves the record unchanged
(the TS code, typed `@ts-ignore`, never produces that case from its callers). -/
def setField (c : Config) (k : String) (v : ConfigValue) : Config :=
  if k = "provider" then
    match v with | .str s => { c with provider := s } | .map _ => c
  else if k = "OPENAI_API_KEY" then
    match v with | .str s => { c with OPENAI_API_KEY := s } | .map _ => c
  else if k = "model" then
    match v with | .str s => { c with model := s } | .map _ => c
  else if k = "ollama_endpoint" then
    match v with | .str s => { c with ollama_endpoint := some s } | .map _ => c
  else if k = "ollama_model" then
    match v with | .str s => { c with ollama_model := some s } | .map _ => c
  else if k = "templates" then
    match v with | .map m => { c with templates := m } | .str _ => c
  else c

/-- Outcome of `setConfigs`: either an error was thrown (config corrupt, or an
invalid key) and nothing was written, or the final object was persisted by the
single `Bun.write` call. -/
inductive SetOutcome where
  | thrown (msg : String)
  | wrote (c : Config)
  deriving DecidableEq, Repr

/-- Embedding of `setConfigs` (config.ts): load, validate every key, apply
every entry in order, then persist the whole object in one write. -/
def setConfigs (home : String) (file : ConfigFile)
    (kvs : List (String × ConfigValue)) : SetOutcome :=
  match readConfigFile home file with
  | .error e => .thrown e
  | .ok c =>
    match validateKeys (kvs.map Prod.fst) with
    | .error e => .thrown e
    | .ok _ => .wrote (kvs.foldl (fun acc kv => setField acc kv.1 kv.2) c)

/-- Character codes used by the replacement scanner of `String.prototype.replace`. -/
def dollarChar : Char := '$'

/-- Ampersand, for the `$&` pattern of the replacement scanner. -/
def ampChar : Char := '&'

/-- Backquote character (code 96), for the substitution pattern that inserts
the portion of the string preceding the match. -/
def backquoteChar : Char := Char.ofNat 96

/-- Single-quote character (code 39), for the substitution pattern that
inserts the portion of the string following the match. -/
def singleQuoteChar : Char := Char.ofNat 39

/-- ECMAScript `GetSubstitution` for a string pattern (no capture groups):
scans the replacement text, expanding two dollars to one dollar, dollar-and to
the matched text, dollar-backquote to the text before the match and
dollar-quote to the text after it; any other character after a dollar is kept
literally (including digits, since a string pattern has no captures). -/
def getSubstitution (matched before after : List Char) : List Char → List Char
  | [] => []
  | [c] => if c = dollarChar then [dollarChar] else [c]
  | c :: c2 :: cs2 =>
    if c = dollarChar then
      if c2 = dollarChar then dollarChar :: getSubstitution matched before after cs2
      else if c2 = ampChar then matched ++ getSubstitution matched before after cs2
      else if c2 = backquoteChar then before ++ getSubstitution matched before after cs2
      else if c2 = singleQuoteChar then after ++ getSubstitution matched before after cs2
      else dollarChar :: c2 :: getSubstitution matched before after cs2
    else c :: getSubstitution matched before after (c2 :: cs2)

/-- First occurrence of `pat` in a character list: `some (p, s)` when the list
is `p ++ pat ++ s` with the occurrence at the earliest position, `none` when
`pat` does not occur (for the empty pattern, the occurrence at position 0,
matching `String.prototype.indexOf`). -/
def firstSplit (pat : List Char) : List Char → Option (List Char × List Char)
  | [] => if pat = [] then some ([], []) else none
  | c :: cs =>
    if pat.isPrefixOf (c :: cs) then some ([], (c :: cs).drop pat.length)
    else
      match firstSplit pat cs with
      | some (p, s) => some (c :: p, s)
      | none => none

/-- Embedding of `s.replace(pat, rep)` for a string `pat`: replace the first
occurrence of `pat`, passing the replacement text through `getSubstitution`;
return `s` unchanged when `pat` does not occur. -/
def jsReplace (pat rep s : List Char) : List Char :=
  match firstSplit pat s with
  | none => s
  | some (p, suf) => p ++ getSubstitution pat p suf rep ++ suf

/-- Placeholder token of the prompt templates, the literal `\x7b\x7bdiff\x7d\x7d`. -/
def diffToken : List Char := "\x7b\x7bdiff\x7d\x7d".data

/-- Embedding of `template.replace("\x7b\x7bdiff\x7d\x7d", diff)` in run.ts. -/
def renderTemplate (template diff : String) : String :=
  String.mk (jsReplace diffToken diff.data template.data)

/-- Rendering as the spec's words describe it, for comparison with
`renderTemplate`: the first occurrence of the token replaced by the diff text
verbatim, the template unchanged when the token is absent. -/
def renderTemplateSpecVerbatim (template diff : String) : String :=
  match firstSplit diffToken template.data with
  | none => template
  | some (p, s) => String.mk (p ++ diff.data ++ s)

/-- ECMAScript whitespace and line terminators, the characters removed by
`String.prototype.trim`. -/
def isJsWhitespace (c : Char) : Bool :=
  c = ' ' || c = '\t' || c = '\n' || c = '\r' ||
  c.val = 11 || c.val = 12 || c.val = 0xa0 || c.val = 0x1680 ||
  (0x2000 ≤ c.val && c.val ≤ 0x200a) ||
  c.val = 0x2028 || c.val = 0x2029 || c.val = 0x202f || c.val = 0x205f ||
  c.val = 0x3000 || c.val = 0xfeff

/-- JS `a || b` on an optional string field: the fallback is taken when the
field is absent (`undefined`) or holds the empty string (falsy). -/
def jsOr (o : Option String) (d : String) : String :=
  match o with
  | none => d
  | some s => if s = "" then d else s

/-- One message of a chat request. -/
structure ChatMessage where
  role : String
  content : String
  deriving DecidableEq, Repr

/-- Outcome of `run` (run.ts), reified up to the first provider invocation:
an error propagated out of the function, a `process.exit` with a code and the
printed message, or a chat request handed to one of the two client libraries
(the only points where a provider call is issued). -/
inductive RunOutcome where
  | thrown (msg : String)
  | exited (code : Nat) (msg : String)
  | ollamaChat (host : String) (model : String) (messages : List ChatMessage)
  | openaiChat (apiKey : String) (model : String) (messages : List ChatMessage)
  deriving DecidableEq, Repr

/-- Modelled from the ollama client library (not part of this repository):
the default host used by its default exported client, which run.ts calls
without passing any host. -/
def ollamaDefaultHost : String := "http://127.0.0.1:11434"

/-- System message of the cloud request, copied from run.ts. -/
def openaiSystemPrompt : String :=
  "You are a commit message generator. I will provide you with a git diff, and I would like you to generate an appropriate commit message using the conventional commit format. Do not write any explanations or other words, just reply with the commit message."

/-- Provider dispatch of run.ts (lines 89-149), applied to the rendered
template. In the local branch the code computes the configured endpoint but
uses it only in a verbose log line; the chat call goes through the client
library's default host with `config.ollama_model || "llama3"`. In the cloud
branch, empty API key and empty model each exit with code 1 before the client
is constructed. -/
def dispatch (c : Config) (rendered : String) : RunOutcome :=
  if c.provider = "ollama" then
    .ollamaChat ollamaDefaultHost (jsOr c.ollama_model "llama3")
      [{ role := "user", content := rendered }]
  else if c.OPENAI_API_KEY = "" then
    .exited 1 "OPENAI_API_KEY is not set"
  else if c.model = "" then
    .exited 1 "Model is not set"
  else
    .openaiChat c.OPENAI_API_KEY c.model
      [{ role := "system", content := openaiSystemPrompt },
       { role := "user", content := rendered }]

/-- Template-path resolution of run.ts (lines 29-51): a given name is looked
up with an exit-1 error when absent; otherwise `config.templates.default` is
accessed directly (when that key is missing, the JS code passes `undefined`
to `Bun.file`, modelled as a thrown type error; no claim exercises it). -/
def resolveTemplatePath (c : Config) (tname : Option String) : Except RunOutcome String :=
  match tname with
  | some n =>
    match List.lookup n c.templates with
    | some p => .ok p
    | none =>
      .error (.exited 1
        ("Error: Template \x27" ++ n ++ "\x27 does not exist in the configuration."))
  | none =>
    match List.lookup "default" c.templates with
    | some p => .ok p
    | none => .error (.thrown "TypeError: undefined template path")

/-- Body of `run` after the configuration is loaded: resolve the template
path, require the template file to exist, read it, stop when the staged diff
trims to nothing, otherwise render and dispatch. `fexists` and `readF` stand
for `Bun.file(..).exists()` and `Bun.file(..).text()`; `cwd` is the trimmed
output of `pwd`; `diff` the staged diff. -/
def runWithConfig (c : Config) (tname : Option String) (fexists : String → Bool)
    (readF : String → String) (cwd diff : String) : RunOutcome :=
  match resolveTemplatePath c tname with
  | .error out => out
  | .ok tpath =>
    if fexists tpath then
      if diff.data.all isJsWhitespace then
        .exited 1 ("No changes to commit in " ++ cwd)
      else
        dispatch c (renderTemplate (readF tpath) diff)
    else
      .exited 1 ("Error: The template file \x27" ++ tpath ++ "\x27 does not exist.")

/-- Embedding of `run` (run.ts): load the configuration (errors propagate,
there is no catch around `readConfigFile` here) and continue with the body. -/
def run (home : String) (file : ConfigFile) (tname : Option String)
    (fexists : String → Bool) (readF : String → String) (cwd diff : String) : RunOutcome :=
  match readConfigFile home file with
  | .error e => .thrown e
  | .ok c => runWithConfig c tname fexists readF cwd diff

/-- JSON values, for the payload of the tag-listing response. -/
inductive JValue where
  | null
  | bool (b : Bool)
  | num (n : Int)
  | str (s : String)
  | arr (xs : List JValue)
  | obj (kvs : List (String × JValue))

/-- Property access `data[k]` on a JSON value: `none` both when the key is
absent and when the value is not an object (JS `undefined`). -/
def jGet (v : JValue) (k : String) : Option JValue :=
  match v with
  | .obj kvs => List.lookup k kvs
  | _ => none

/-- JS truthiness of a JSON value. -/
def jTruthy : JValue → Bool
  | .null => false
  | .bool b => b
  | .num n => n != 0
  | .str s => s != ""
  | .arr _ => true
  | .obj _ => true

/-- The chain `m[k1] || m[k2] || ""` applied to one entry of the response
array (an absent property behaves like `undefined`, which is falsy). -/
def pickField (m : JValue) (k1 k2 : String) : JValue :=
  let a := (jGet m k1).getD .null
  if jTruthy a then a
  else
    let b := (jGet m k2).getD .null
    if jTruthy b then b else .str ""

/-- Normalization of the parsed tag-listing body in `getOllamaModels`
(config.ts lines 327-337): a `models` array read through `name || model`, else
a `tags` array read through `name || tag`, falsy entries filtered out, and an
empty list when neither array is present. -/
def normalizeTags (data : JValue) : List JValue :=
  match jGet data "models" with
  | some (.arr ms) => (ms.map (fun m => pickField m "name" "model")).filter jTruthy
  | _ =>
    match jGet data "tags" with
    | some (.arr ts) => (ts.map (fun t => pickField t "name" "tag")).filter jTruthy
    | _ => []

/-- Result of the `fetch` of the tag-listing endpoint: network failure, a
non-success HTTP status, a body that does not parse as JSON, or a parsed
body. -/
inductive FetchOutcome where
  | netErr
  | notOk
  | badBody
  | okJson (data : JValue)

/-- Embedding of `getOllamaModels` (config.ts): every failure path is caught
and yields the empty list (fail-soft); a parsed body is normalized. -/
def getOllamaModels : FetchOutcome → List JValue
  | .netErr => []
  | .notOk => []
  | .badBody => []
  | .okJson data => normalizeTags data

/-- Outcome of `getModels` (config.ts): a thrown error, the list produced
for the local provider (catalog result or single-element fallback), or the
cloud model-list request issued with the configured key. -/
inductive ModelsOutcome where
  | thrown (msg : String)
  | localModels (ms : List JValue)
  | openaiList (apiKey : String)

/-- Embedding of `getModels` (config.ts): for the local provider the catalog
is consulted (the `fetch` parameter abstracts that request together with its
endpoint) and an empty answer falls back to
`[config.ollama_model || "gemma3:4b"]`; for the cloud provider an empty key
throws before the client is constructed. -/
def getModels (home : String) (file : ConfigFile) (fetch : FetchOutcome) : ModelsOutcome :=
  match readConfigFile home file with
  | .error e => .thrown e
  | .ok c =>
    if c.provider = "ollama" then
      let ms := getOllamaModels fetch
      .localModels (if ms.isEmpty then [.str (jsOr c.ollama_model "gemma3:4b")] else ms)
    else if c.OPENAI_API_KEY = "" then
      .thrown "OPENAI_API_KEY is not set"
    else
      .openaiList c.OPENAI_API_KEY

/-- Outcome of the loading step of `showConfigUI` (config.ts lines 141-143
and 316-318): the body runs inside a try/catch whose handler prints
`error.message` and lets the function return normally, so an error during
`readConfigFile`/`cleanUpTemplates` is logged, never rethrown. -/
inductive UIOutcome where
  | proceeded (c : Config)
  | loggedAndReturned (msg : String)
  deriving DecidableEq, Repr

/-- Config-loading step of `showConfigUI`:
`cleanUpTemplates(await readConfigFile())` under the surrounding catch. -/
def showConfigUIOnLoad (home : String) (file : ConfigFile)
    (fexists : String → Bool) : UIOutcome :=
  match readConfigFile home file with
  | .ok c => .proceeded (cleanUpTemplates fexists c)
  | .error e => .loggedAndReturned e

/-- Replacement text containing no dollar sign passes through the
substitution scanner unchanged. -/
theorem getSubstitution_no_dollar (m b a : List Char) :
    ∀ rep : List Char, dollarChar ∉ rep → getSubstitution m b a rep = rep
  | [], _ => rfl
  | [c], h => by
    have hc : ¬ c = dollarChar := by
      intro hc; exact h (by simp [hc])
    simp [getSubstitution, hc]
  | c :: c2 :: cs2, h => by
    have hc : ¬ c = dollarChar := by
      intro hc; exact h (by simp [hc])
    have h2 : dollarChar ∉ c2 :: cs2 := by
      intro hm; exact h (List.mem_cons_of_mem c hm)
    rw [getSubstitution, if_neg hc, getSubstitution_no_dollar m b a (c2 :: cs2) h2]

/-- Key validation succeeds exactly when every key is a recognized field. -/
theorem validateKeys_eq_ok_iff (ks : List String) :
    validateKeys ks = .ok () ↔ ∀ k ∈ ks, configKeys.contains k = true := by
  induction ks with
  | nil =>
    exact ⟨fun _ k hk => absurd hk (List.not_mem_nil k), fun _ => rfl⟩
  | cons k rest ih =>
    by_cases hk : k ∈ configKeys
    · simp [validateKeys, hk, ih]
    · simp [validateKeys, hk]

/-- A key-validation error names an unrecognized key from the given list. -/
theorem validateKeys_eq_error (ks : List String) (e : String)
    (h : validateKeys ks = .error e) :
    ∃ k, k ∈ ks ∧ configKeys.contains k = false ∧
      e = "Invalid config property: " ++ k := by
  induction ks with
  | nil => simp [validateKeys] at h
  | cons k rest ih =>
    by_cases hk : configKeys.contains k = true
    · rw [validateKeys, if_pos hk] at h
      obtain ⟨k', h1, h2, h3⟩ := ih h
      exact ⟨k', List.mem_cons_of_mem _ h1, h2, h3⟩
    · rw [validateKeys, if_neg hk] at h
      injection h with h'
      exact ⟨k, List.mem_cons_self _ _, by simpa using hk, h'.symm⟩

/-- Claim C1, counterexample: with every template file missing,
`cleanUpTemplates` removes the `default` entry of the default configuration,
so the claimed invariant (the `default` key is never removed) fails. -/
theorem cleanUpTemplates_removes_default_cex :
    List.lookup "default"
      (cleanUpTemplates (fun _ => false) (DEFAULT_CONFIG "home")).templates = none := by
  decide

/-- Claim C1, amended: `cleanUpTemplates` keeps exactly the template entries
whose file exists — including removing `default` when its file is missing —
and the defaults produced by a load with no file present do contain the
`default` entry. -/
theorem cleanUpTemplates_membership :
    (∀ (fexists : String → Bool) (c : Config) (kv : String × String),
      kv ∈ (cleanUpTemplates fexists c).templates ↔
        kv ∈ c.templates ∧ fexists kv.2 = true) ∧
    (∀ home : String,
      List.lookup "default" (DEFAULT_CONFIG home).templates =
        some (pathJoin home ".bunnai-template")) := by
  constructor
  · intro fexists c kv
    simp [cleanUpTemplates, List.mem_filter]
  · intro home
    rfl

/-- Claim C2, counterexample: rendering is `String.prototype.replace`, whose
replacement text is scanned for dollar patterns, so a diff containing `$$` is
not inserted verbatim: the code yields `msg: $` where the claimed verbatim
replacement yields `msg: $$`. -/
theorem renderTemplate_dollar_cex :
    renderTemplate "msg: \x7b\x7bdiff\x7d\x7d" "$$" = "msg: $" ∧
    renderTemplateSpecVerbatim "msg: \x7b\x7bdiff\x7d\x7d" "$$" = "msg: $$" ∧
    renderTemplate "msg: \x7b\x7bdiff\x7d\x7d" "$$" ≠
      renderTemplateSpecVerbatim "msg: \x7b\x7bdiff\x7d\x7d" "$$" := by
  refine ⟨by decide, by decide, by decide⟩

/-- Claim C2, amended: rendering replaces exactly the first occurrence of the
token — a token-free template is returned unchanged, a second occurrence is
left literal — and the diff is inserted verbatim whenever it contains no
dollar character (in general the diff passes through the ECMAScript
substitution scanner). -/
theorem renderTemplate_first_occurrence :
    (∀ (t d : String), firstSplit diffToken t.data = none → renderTemplate t d = t) ∧
    (∀ (t d : String) (p s : List Char),
      firstSplit diffToken t.data = some (p, s) → dollarChar ∉ d.data →
      renderTemplate t d = String.mk (p ++ d.data ++ s)) ∧
    renderTemplate "msg: \x7b\x7bdiff\x7d\x7d" "D" = "msg: D" ∧
    renderTemplate "a \x7b\x7bdiff\x7d\x7db\x7b\x7bdiff\x7d\x7d" "D" =
      "a Db\x7b\x7bdiff\x7d\x7d" := by
  refine ⟨?_, ?_, by decide, by decide⟩
  · intro t d h
    unfold renderTemplate jsReplace
    rw [h]
  · intro t d p s h hd
    have hred : renderTemplate t d =
        String.mk (p ++ getSubstitution diffToken p s d.data ++ s) := by
      unfold renderTemplate jsReplace
      rw [h]
    rw [hred, getSubstitution_no_dollar _ _ _ _ hd]

/-- Claim C2, witness for the amended theorem at a concrete template and a
dollar-free diff. -/
theorem renderTemplate_first_occurrence_witness :
    renderTemplate "x \x7b\x7bdiff\x7d\x7d y" "D" = "x D y" := by
  have h := renderTemplate_first_occurrence.2.1 "x \x7b\x7bdiff\x7d\x7d y" "D"
      "x ".data " y".data (by decide) (by decide)
  rw [h]
  decide

/-- Claim C3: `setConfigs` validates every given key before applying any
mutation — validation succeeds exactly when every key is a recognized field;
then every entry is applied in order and the whole object is persisted in one
write; on an unrecognized key it throws an error naming an offending key and
nothing is written, leaving the persisted file unchanged. -/
theorem setConfigs_all_or_nothing (home : String) (file : ConfigFile) (c : Config)
    (kvs : List (String × ConfigValue))
    (hload : readConfigFile home file = .ok c) :
    (validateKeys (kvs.map Prod.fst) = .ok () ↔
      ∀ k ∈ kvs.map Prod.fst, configKeys.contains k = true) ∧
    (validateKeys (kvs.map Prod.fst) = .ok () →
      setConfigs home file kvs =
        .wrote (kvs.foldl (fun acc kv => setField acc kv.1 kv.2) c)) ∧
    (∀ e, validateKeys (kvs.map Prod.fst) = .error e →
      setConfigs home file kvs = .thrown e ∧
      ∃ k, k ∈ kvs.map Prod.fst ∧ configKeys.contains k = false ∧
        e = "Invalid config property: " ++ k) := by
  refine ⟨validateKeys_eq_ok_iff _, ?_, ?_⟩
  · intro hok
    simp [setConfigs, hload, hok]
  · intro e he
    exact ⟨by simp [setConfigs, hload, he], validateKeys_eq_error _ e he⟩

/-- Claim C3, witness: a valid entry is applied and persisted; an entry with
the misspelled key `modle` throws the error naming it and nothing is written. -/
theorem setConfigs_all_or_nothing_witness :
    setConfigs "h" .absent [("model", .str "x")] =
      .wrote { DEFAULT_CONFIG "h" with model := "x" } ∧
    setConfigs "h" .absent [("modle", .str "x")] =
      .thrown "Invalid config property: modle" := by
  constructor
  · have h := (setConfigs_all_or_nothing "h" .absent (DEFAULT_CONFIG "h")
      [("model", ConfigValue.str "x")] rfl).2.1 rfl
    rw [h]
    decide
  · have h := (setConfigs_all_or_nothing "h" .absent (DEFAULT_CONFIG "h")
      [("modle", ConfigValue.str "x")] rfl).2.2 "Invalid config property: modle" rfl
    exact h.1

/-- Claim C4: loading with no configuration file returns exactly the
hardcoded defaults; loading a file containing only `model: x` overrides only
`model`; in general a decoded file is shallow-merged onto the defaults with
loaded values winning per key. -/
theorem readConfigFile_defaults_and_merge :
    (∀ home : String, readConfigFile home .absent = .ok (DEFAULT_CONFIG home)) ∧
    (∀ home : String,
      readConfigFile home (.valid ⟨none, none, some "x", none, none, none⟩) =
        .ok { DEFAULT_CONFIG home with model := "x" }) ∧
    (∀ (home : String) (p : ConfigOverrides),
      readConfigFile home (.valid p) = .ok (mergeConfig (DEFAULT_CONFIG home) p)) :=
  ⟨fun _ => rfl, fun _ => rfl, fun _ _ => rfl⟩

/-- Claim C5, counterexample: with a corrupt configuration file,
`showConfigUI` does not propagate the load error — its surrounding catch
prints the message and the function returns normally, so this caller swallows
the error. -/
theorem showConfigUI_swallows_corrupt_cex :
    showConfigUIOnLoad "h" .corrupt (fun _ => true) =
      .loggedAndReturned configCorruptError := rfl

/-- Claim C5, amended: a configuration file that is not valid JSON makes
`readConfigFile` fail, and the error propagates out of `run`, `setConfigs`
and `getModels`; `showConfigUI`, however, catches it, logs the message and
returns normally. -/
theorem configCorrupt_propagation :
    (∀ home : String, readConfigFile home .corrupt = .error configCorruptError) ∧
    (∀ (home : String) (tname : Option String) (fexists : String → Bool)
      (readF : String → String) (cwd diff : String),
      run home .corrupt tname fexists readF cwd diff = .thrown configCorruptError) ∧
    (∀ (home : String) (kvs : List (String × ConfigValue)),
      setConfigs home .corrupt kvs = .thrown configCorruptError) ∧
    (∀ (home : String) (fetch : FetchOutcome),
      getModels home .corrupt fetch = .thrown configCorruptError) ∧
    (∀ (home : String) (fexists : String → Bool),
      showConfigUIOnLoad home .corrupt fexists = .loggedAndReturned configCorruptError) :=
  ⟨fun _ => rfl, fun _ _ _ _ _ _ => rfl, fun _ _ => rfl, fun _ _ => rfl, fun _ _ => rfl⟩

/-- Claim C6: tag-listing normalization — a `models` array is read through
`name` falling back to `model`, a `tags` array through `name` falling back to
`tag`, entries normalizing to the empty string are dropped, a body with
neither array yields the empty list, and every network error, non-success
status or unparsable body yields the empty list without throwing. -/
theorem getOllamaModels_normalization :
    getOllamaModels (.okJson (.obj [("models",
        .arr [.obj [("name", .str "a")], .obj [("model", .str "b")]])])) =
      [.str "a", .str "b"] ∧
    getOllamaModels (.okJson (.obj [("tags", .arr [.obj [("tag", .str "c")]])])) =
      [.str "c"] ∧
    getOllamaModels (.okJson (.obj [("models",
        .arr [.obj [("name", .str "")], .obj [("name", .str "ok")]])])) =
      [.str "ok"] ∧
    getOllamaModels (.okJson (.obj [])) = [] ∧
    getOllamaModels .netErr = [] ∧
    getOllamaModels .notOk = [] ∧
    getOllamaModels .badBody = [] ∧
    (∀ data : JValue, jGet data "models" = none → jGet data "tags" = none →
      getOllamaModels (.okJson data) = []) := by
  refine ⟨rfl, rfl, rfl, rfl, rfl, rfl, rfl, ?_⟩
  intro data h1 h2
  simp [getOllamaModels, normalizeTags, h1, h2]

/-- Claim C6, witness for the general absent-arrays conjunct at a concrete
non-object body. -/
theorem getOllamaModels_normalization_witness :
    getOllamaModels (.okJson (.str "z")) = [] :=
  getOllamaModels_normalization.2.2.2.2.2.2.2 (.str "z") rfl rfl

/-- Claim C7: with the cloud provider selected and an empty API key, once the
pipeline reaches dispatch (template found, staged diff nonempty) the run exits
with code 1 printing the credential message, and `getModels` throws the
credential error; in both cases the outcome is not a provider call, so no
request is issued. -/
theorem cloud_missing_key_no_call (home : String) (file : ConfigFile) (c : Config)
    (fetch : FetchOutcome) (tname : Option String) (fexists : String → Bool)
    (readF : String → String) (cwd diff tpath : String)
    (hload : readConfigFile home file = .ok c)
    (hp : c.provider = "openai") (hk : c.OPENAI_API_KEY = "")
    (ht : resolveTemplatePath c tname = .ok tpath)
    (hex : fexists tpath = true)
    (hd : diff.data.all isJsWhitespace = false) :
    run home file tname fexists readF cwd diff =
      .exited 1 "OPENAI_API_KEY is not set" ∧
    getModels home file fetch = .thrown "OPENAI_API_KEY is not set" ∧
    (∀ host model msgs,
      run home file tname fexists readF cwd diff ≠ .ollamaChat host model msgs) ∧
    (∀ key model msgs,
      run home file tname fexists readF cwd diff ≠ .openaiChat key model msgs) := by
  have hrun : run home file tname fexists readF cwd diff =
      .exited 1 "OPENAI_API_KEY is not set" := by
    simp [run, hload, runWithConfig, ht, hex, hd, dispatch, hp, hk]
  refine ⟨hrun, ?_, ?_, ?_⟩
  · simp [getModels, hload, hp, hk]
  · intro host model msgs heq
    rw [hrun] at heq
    exact RunOutcome.noConfusion heq
  · intro key model msgs heq
    rw [hrun] at heq
    exact RunOutcome.noConfusion heq

/-- Claim C7, witness: the default configuration (cloud provider, empty key)
with an existing template and a nonempty diff. -/
theorem cloud_missing_key_no_call_witness :
    run "h" .absent none (fun _ => true) (fun _ => "T") "W" "D" =
      .exited 1 "OPENAI_API_KEY is not set" ∧
    getModels "h" .absent .netErr = .thrown "OPENAI_API_KEY is not set" := by
  have h := cloud_missing_key_no_call "h" .absent (DEFAULT_CONFIG "h") .netErr none
      (fun _ => true) (fun _ => "T") "W" "D" (pathJoin "h" ".bunnai-template")
      rfl rfl rfl rfl rfl (by decide)
  exact ⟨h.1, h.2.1⟩

/-- Claim C8: when the retrieved staged diff is the empty string, the run
exits with code 1 and the outcome is not a provider call — neither chat
endpoint is invoked. -/
theorem empty_diff_exits_no_call (home : String) (file : ConfigFile) (c : Config)
    (tname : Option String) (fexists : String → Bool) (readF : String → String)
    (cwd tpath : String)
    (hload : readConfigFile home file = .ok c)
    (ht : resolveTemplatePath c tname = .ok tpath)
    (hex : fexists tpath = true) :
    run home file tname fexists readF cwd "" =
      .exited 1 ("No changes to commit in " ++ cwd) ∧
    (∀ host model msgs,
      run home file tname fexists readF cwd "" ≠ .ollamaChat host model msgs) ∧
    (∀ key model msgs,
      run home file tname fexists readF cwd "" ≠ .openaiChat key model msgs) := by
  have hempty : "".data.all isJsWhitespace = true := rfl
  have hrun : run home file tname fexists readF cwd "" =
      .exited 1 ("No changes to commit in " ++ cwd) := by
    simp [run, hload, runWithConfig, ht, hex, hempty]
  refine ⟨hrun, ?_, ?_⟩
  · intro host model msgs heq
    rw [hrun] at heq
    exact RunOutcome.noConfusion heq
  · intro key model msgs heq
    rw [hrun] at heq
    exact RunOutcome.noConfusion heq

/-- Claim C8, witness at the default configuration with an existing template
file and the empty diff. -/
theorem empty_diff_exits_no_call_witness :
    run "h" .absent none (fun _ => true) (fun _ => "T") "W" "" =
      .exited 1 "No changes to commit in W" := by
  have h := empty_diff_exits_no_call "h" .absent (DEFAULT_CONFIG "h") none
      (fun _ => true) (fun _ => "T") "W" (pathJoin "h" ".bunnai-template") rfl rfl rfl
  exact h.1

/-- Claim C9: the chat request of the local-provider dispatch is independent
of `ollama_endpoint` — at the dispatch level and for whole runs on files
differing only in that field — and with the local provider selected the call
goes to the client library's default host with the configured (or fallback)
model and the single user message. -/
theorem dispatch_endpoint_independent :
    (∀ (c : Config) (r : String) (e₁ e₂ : Option String),
      dispatch { c with ollama_endpoint := e₁ } r =
        dispatch { c with ollama_endpoint := e₂ } r) ∧
    (∀ (home : String) (p : ConfigOverrides) (e₁ e₂ : Option String)
      (tname : Option String) (fexists : String → Bool) (readF : String → String)
      (cwd diff : String),
      run home (.valid { p with ollama_endpoint := e₁ }) tname fexists readF cwd diff =
        run home (.valid { p with ollama_endpoint := e₂ }) tname fexists readF cwd diff) ∧
    (∀ (c : Config) (r : String), c.provider = "ollama" →
      dispatch c r = .ollamaChat ollamaDefaultHost (jsOr c.ollama_model "llama3")
        [{ role := "user", content := r }]) := by
  refine ⟨fun _ _ _ _ => rfl, fun _ _ _ _ _ _ _ _ _ => rfl, ?_⟩
  intro c r hp
  simp [dispatch, hp]

/-- Claim C9, witness for the local-dispatch conjunct at a concrete
configuration. -/
theorem dispatch_endpoint_independent_witness :
    dispatch { DEFAULT_CONFIG "h" with provider := "ollama" } "R" =
      .ollamaChat ollamaDefaultHost "gemma3:4b" [{ role := "user", content := "R" }] := by
  have h := dispatch_endpoint_independent.2.2
      { DEFAULT_CONFIG "h" with provider := "ollama" } "R" rfl
  rw [h]
  decide

/-- Claim C10: with `ollama_model` unset or empty, the local dispatch sends
the chat request with the hardcoded `llama3`, while the hardcoded default
configuration and the catalog fallback of `getModels` both use `gemma3:4b`,
which differs. -/
theorem ollama_model_fallback_mismatch :
    (∀ (c : Config) (r : String), c.provider = "ollama" →
      c.ollama_model = none ∨ c.ollama_model = some "" →
      dispatch c r = .ollamaChat ollamaDefaultHost "llama3"
        [{ role := "user", content := r }]) ∧
    (∀ home : String, (DEFAULT_CONFIG home).ollama_model = some "gemma3:4b") ∧
    ("llama3" : String) ≠ "gemma3:4b" ∧
    (∀ (home : String) (file : ConfigFile) (c : Config) (fetch : FetchOutcome),
      readConfigFile home file = .ok c → c.provider = "ollama" →
      c.ollama_model = none ∨ c.ollama_model = some "" →
      getOllamaModels fetch = [] →
      getModels home file fetch = .localModels [.str "gemma3:4b"]) := by
  refine ⟨?_, fun _ => rfl, by decide, ?_⟩
  · intro c r hp hm
    rcases hm with hm | hm <;> simp [dispatch, hp, hm, jsOr]
  · intro home file c fetch hload hp hm hfetch
    rcases hm with hm | hm <;> simp [getModels, hload, hp, hm, hfetch, jsOr]

/-- Claim C10, witness: a configuration with the local provider and an absent
model dispatches with `llama3`; a loaded file selecting the local provider
with an empty model and an unreachable catalog falls back to `gemma3:4b`. -/
theorem ollama_model_fallback_mismatch_witness :
    dispatch { DEFAULT_CONFIG "h" with provider := "ollama", ollama_model := none } "R" =
      .ollamaChat ollamaDefaultHost "llama3" [{ role := "user", content := "R" }] ∧
    getModels "h" (.valid ⟨some "ollama", none, none, none, some "", none⟩) .netErr =
      .localModels [.str "gemma3:4b"] := by
  constructor
  · exact ollama_model_fallback_mismatch.1
      { DEFAULT_CONFIG "h" with provider := "ollama", ollama_model := none } "R"
      rfl (Or.inl rfl)
  · exact ollama_model_fallback_mismatch.2.2.2 "h"
      (.valid ⟨some "ollama", none, none, none, some "", none⟩)
      (mergeConfig (DEFAULT_CONFIG "h") ⟨some "ollama", none, none, none, some "", none⟩)
      .netErr rfl rfl (Or.inr rfl) rfl
